import Mathlib

/-!
Verification of the arithmetic-tool core of the calculator server
(`calculator_server.py`) and of its invocation gateway, against the
repository's specification.

The embedding is a shallow one:

* Python runtime values reaching the tool functions are modelled by `PyVal`
  (booleans, arbitrary-precision integers, floats, strings, lists).  A
  Python float is modelled by `PyFloat`: an exact rational, positive or
  negative infinity, or NaN.  This idealizes IEEE-754 doubles in two ways,
  both stated where they matter: finite arithmetic is exact (no rounding),
  and overflow of `+`, `-`, `*`, `/` past `DBL_MAX` produces an infinity,
  as in CPython.  No theorem below depends on rounding.
* Python numeric literals `1e308` and `-1e308` (the module constants
  `MAX_INPUT_VALUE` / `MIN_INPUT_VALUE`) are modelled as the exact
  rationals `10^308` and `-10^308`.
* Each `raise` site of the source is one constructor of `Err`; the Python
  exception class and message of each constructor are recovered by
  `errClass` and `errMsg`.  A function raising is modelled by
  `Except Err PyVal`.  This includes the error paths inside CPython's own
  primitives: in particular `math.isnan` converts its argument to a double
  and raises `OverflowError("int too large to convert to float")` on ints
  beyond double range, modelled by `PyVal.intOverflows` at the two call
  sites (`validate_number`, and the result check of `power`).
* `logger.info` / `logger.error` calls never change control flow or values
  and are dropped.
* Python's `**` on a positive float base with a non-integer exponent has an
  irrational value in general; it is abstracted as an oracle parameter
  `rpow` supplied to `power`.  Every theorem about `power` holds for every
  oracle, so nothing below depends on its value.
-/

namespace CalcServer

/-- A Python float: an exact finite rational, an infinity, or NaN. -/
inductive PyFloat where
  | finite (q : ℚ)
  | inf (neg : Bool)
  | nan

/-- A Python runtime value as it may reach the tool functions: `bool`,
`int`, `float`, `str` or `list` (the test-suite passes strings and lists). -/
inductive PyVal where
  | vbool (b : Bool)
  | vint (n : ℤ)
  | vfloat (f : PyFloat)
  | vstr (s : String)
  | vlist (l : List PyVal)

/-- Source: `MAX_INPUT_VALUE: float = 1e308` (the literal idealized as the
exact rational `10^308`; `MIN_INPUT_VALUE` is its negation). -/
def MAX_INPUT_VALUE : ℚ := 10 ^ 308

/-- Source: `MIN_INPUT_VALUE: float = -1e308`. -/
def MIN_INPUT_VALUE : ℚ := -MAX_INPUT_VALUE

/-- The largest finite double, `1.7976931348623157e308`, idealized as the
exact rational `17976931348623157 * 10^292`: float arithmetic whose exact
value passes this bound overflows. -/
def DBL_MAX : ℚ := 17976931348623157 * 10 ^ 292

/-- Python `isinstance(value, (int, float))`.  A `bool` is an instance of
`int` in Python, so it counts as numeric. -/
def PyVal.isNumeric : PyVal → Bool
  | .vbool _ => true
  | .vint _ => true
  | .vfloat _ => true
  | _ => false

/-- The boolean result of Python `math.isnan(value)` on an `int` or `float`
value for which the implicit double conversion succeeds.  For an `int`
beyond double range the call does not return at all — it raises
`OverflowError("int too large to convert to float")` while converting;
that failure is modelled separately by `PyVal.intOverflows` and tested
wherever the source calls `math.isnan`. -/
def PyVal.isNaNVal : PyVal → Bool
  | .vfloat .nan => true
  | _ => false

/-- Python `math.isinf(value)`. -/
def PyVal.isInfVal : PyVal → Bool
  | .vfloat (.inf _) => true
  | _ => false

/-- The exact numeric value of a finite numeric `PyVal`, the value Python's
`==` and `<=` compare: `True`/`False` are `1`/`0`.  (Zero, by convention,
on NaN, infinities and non-numerics; every use below is guarded.) -/
def PyVal.toQ : PyVal → ℚ
  | .vbool b => if b then 1 else 0
  | .vint n => (n : ℚ)
  | .vfloat (.finite q) => q
  | _ => 0

/-- Whether the value is of Python type `int` (including `bool`), the types
whose arithmetic stays exact and arbitrary-precision. -/
def PyVal.isIntLike : PyVal → Bool
  | .vbool _ => true
  | .vint _ => true
  | _ => false

/-- The integer value of an int-like `PyVal` (zero elsewhere; guarded). -/
def PyVal.intVal : PyVal → ℤ
  | .vbool b => if b then 1 else 0
  | .vint n => n
  | _ => 0

/-- Whether converting the value to a double — as `math.isnan` and
`math.isinf` implicitly do — raises
`OverflowError("int too large to convert to float")`: an `int` beyond
double range (the exact round-half-even boundary is idealized as
`DBL_MAX`, consistently with `floatOfQ`).  Floats and booleans always
convert; Python's `==` and `<=` compare `int` with `float` exactly and
never convert, so only the `math.isnan` / `math.isinf` call sites can
raise this. -/
def PyVal.intOverflows : PyVal → Bool
  | .vint n => decide (DBL_MAX < |(n : ℚ)|)
  | _ => false

/-- Python `MIN_INPUT_VALUE <= v <= MAX_INPUT_VALUE` as a chained comparison
on the value: any comparison with NaN is false, and an infinity fails one
side, so both make the conjunction false. -/
def inRange (v : PyVal) : Bool :=
  match v with
  | .vfloat (.inf _) => false
  | .vfloat .nan => false
  | _ => decide (-MAX_INPUT_VALUE ≤ v.toQ ∧ v.toQ ≤ MAX_INPUT_VALUE)

/-- The spec's Number invariant: numeric, not NaN, not infinite, within
`[-1e308, 1e308]`. -/
def validNumber (v : PyVal) : Bool :=
  v.isNumeric && !v.isNaNVal && !v.isInfVal && inRange v

/-- Python `type(value).__name__`, used in the `InvalidType` message. -/
def typeName : PyVal → String
  | .vbool _ => "bool"
  | .vint _ => "int"
  | .vfloat _ => "float"
  | .vstr _ => "str"
  | .vlist _ => "list"

/-- Python `str(value)` as interpolated into error messages.  The rendering
of floats and lists is idealized (no theorem below depends on it); integers
and strings render as in Python. -/
def pyStr : PyVal → String
  | .vbool b => if b then "True" else "False"
  | .vint n => toString n
  | .vfloat (.finite q) => toString q
  | .vfloat (.inf neg) => if neg then "-inf" else "inf"
  | .vfloat .nan => "nan"
  | .vstr s => s
  | .vlist _ => "[...]"

/-- The Python exception class an error is raised with. -/
inductive ExcClass where
  | valueError
  | overflowError
  | zeroDivisionError
  | typeError
deriving DecidableEq

/-- One constructor per `raise` site reachable in the source (plus the two
exception kinds CPython's own operators raise inside `divide`/`power`):

* `invalidType`, `nanParam`, `infParam`, `outOfRange` — the four checks of
  `validate_number` (spec kinds InvalidType / InvalidValue / InvalidValue /
  OutOfRange);
* `intTooLarge` — the `OverflowError("int too large to convert to float")`
  that `math.isnan` itself raises when its `int` argument cannot be
  converted to a double (it converts before testing), reachable both in
  `validate_number` and at `power`'s `math.isnan(result)` line;
* `divByZero` — `divide`'s `b == 0` check (spec kind DivisionByZero);
* `divResultRange` — `divide`'s result range check (spec kind OutOfRange);
* `powUndefined` — `power`'s `0 ** 0` check; `powExpTooLarge` — its
  exponent-magnitude ceiling (both spec kind InvalidValue);
* `powNaN`, `powInfinite` — `power`'s NaN / infinity result checks;
* `powRange` — `power`'s `OverflowError` result range check (spec Overflow);
* `zeroDivPow` — the `ZeroDivisionError` CPython's `**` raises for a zero
  base and negative exponent;
* `complexChk` — the `TypeError` `math.isnan` raises when `**` returned a
  complex number (negative base, non-integer exponent);
* `mathOverflow` — the `OverflowError` CPython's float `**` raises when the
  result overflows;
* `wrappedDiv`, `wrappedPow` — the catch-all handlers of `divide` / `power`
  that wrap an unexpected exception in a new `ValueError`. -/
inductive Err where
  | invalidType (p : String) (v : PyVal)
  | intTooLarge
  | nanParam (p : String)
  | infParam (p : String)
  | outOfRange (p : String) (v : PyVal)
  | divByZero
  | divResultRange (r : PyVal)
  | powUndefined
  | powExpTooLarge (e : PyVal)
  | powNaN
  | powInfinite
  | powRange (r : PyVal)
  | zeroDivPow
  | complexChk
  | mathOverflow
  | wrappedDiv (e : Err)
  | wrappedPow (e : Err)

/-- The exception class each raise site uses in the source. -/
def errClass : Err → ExcClass
  | .intTooLarge => .overflowError
  | .powRange _ => .overflowError
  | .mathOverflow => .overflowError
  | .zeroDivPow => .zeroDivisionError
  | .complexChk => .typeError
  | _ => .valueError

/-- The message each raise site formats in the source (`\x27` is the ASCII
apostrophe Python's f-strings put around parameter names). -/
def errMsg : Err → String
  | .invalidType p v =>
      "Parameter \x27" ++ p ++ "\x27 must be a number (int or float), but received "
        ++ typeName v ++ ": " ++ pyStr v
  | .intTooLarge => "int too large to convert to float"
  | .nanParam p => "Parameter \x27" ++ p ++ "\x27 cannot be NaN (Not a Number)"
  | .infParam p => "Parameter \x27" ++ p ++ "\x27 cannot be infinity"
  | .outOfRange p v =>
      "Parameter \x27" ++ p ++ "\x27 value " ++ pyStr v
        ++ " is outside the allowed range [-1e+308, 1e+308]"
  | .divByZero => "Division by zero is not allowed. The divisor (b) cannot be zero."
  | .divResultRange r =>
      "Division result " ++ pyStr r
        ++ " is outside the valid range. Consider using smaller input values."
  | .powUndefined => "0^0 is mathematically undefined. Please use non-zero base or exponent."
  | .powExpTooLarge e => "Exponent " ++ pyStr e ++ " is too large. Maximum allowed is 1000."
  | .powNaN =>
      "Power operation resulted in NaN. This may occur with negative base and non-integer exponent."
  | .powInfinite => "Power operation resulted in infinity. Result is too large to represent."
  | .powRange r => "Power result " ++ pyStr r ++ " exceeds representable range."
  | .zeroDivPow => "0.0 cannot be raised to a negative power"
  | .complexChk => "must be real number, not complex"
  | .mathOverflow => "(34, \x27Numerical result out of range\x27)"
  | .wrappedDiv e => "Failed to perform division: " ++ errMsg e
  | .wrappedPow e => "Failed to perform power operation: " ++ errMsg e

/-- Source `validate_number(value, param_name)`: the `isinstance` check, the
NaN check, the infinity check, the range check, in that order; on success
the value itself is returned, uncoerced.  The `math.isnan(value)` call
itself raises `OverflowError` for an `int` beyond double range
(`intOverflows`), before any boolean comes back and before the range check
is reached. -/
def validate_number (value : PyVal) (param_name : String) : Except Err PyVal :=
  if value.isNumeric = false then .error (.invalidType param_name value)
  else if value.intOverflows = true then .error .intTooLarge
  else if value.isNaNVal = true then .error (.nanParam param_name)
  else if value.isInfVal = true then .error (.infParam param_name)
  else if inRange value = false then .error (.outOfRange param_name value)
  else .ok value

/-- A finite float result from an exact value: past `DBL_MAX` in either
direction CPython's `+`, `-`, `*`, `/` overflow to an infinity; within the
bound the value is kept exactly (rounding idealized away). -/
def floatOfQ (q : ℚ) : PyFloat :=
  if DBL_MAX < q then .inf false
  else if q < -DBL_MAX then .inf true
  else .finite q

/-- Negation of a float (used only to state `subtract`'s antisymmetry). -/
def PyFloat.neg : PyFloat → PyFloat
  | .finite q => .finite (-q)
  | .inf b => .inf (!b)
  | .nan => .nan

/-- Python unary minus on a validated numeric value (`-int` is an `int`,
`-bool` promotes to `int`, `-float` is a `float`). -/
def pyNegVal : PyVal → PyVal
  | .vbool b => .vint (-(if b then 1 else 0))
  | .vint n => .vint (-n)
  | .vfloat f => .vfloat f.neg
  | v => v

/-- Python `a + b` on two validated (finite, in-range) numerics: exact
arbitrary-precision `int` when both are int-like, float otherwise. -/
def pyAdd (a b : PyVal) : PyVal :=
  if a.isIntLike && b.isIntLike then .vint (a.intVal + b.intVal)
  else .vfloat (floatOfQ (a.toQ + b.toQ))

/-- Python `a - b` on two validated numerics. -/
def pySub (a b : PyVal) : PyVal :=
  if a.isIntLike && b.isIntLike then .vint (a.intVal - b.intVal)
  else .vfloat (floatOfQ (a.toQ - b.toQ))

/-- Python `a * b` on two validated numerics. -/
def pyMul (a b : PyVal) : PyVal :=
  if a.isIntLike && b.isIntLike then .vint (a.intVal * b.intVal)
  else .vfloat (floatOfQ (a.toQ * b.toQ))

/-- Python `a / b` (true division) on two validated numerics with `b` known
nonzero (the caller checks `b == 0` first): always a float. -/
def pyDiv (a b : PyVal) : PyVal :=
  .vfloat (floatOfQ (a.toQ / b.toQ))

/-- Source `add(a, b)`: validate both parameters, return the sum.  The
`except` clause re-raises every exception unchanged, so it is the identity
on the error path; logging is dropped. -/
def add (a b : PyVal) : Except Err PyVal :=
  match validate_number a "a" with
  | .error e => .error e
  | .ok a1 =>
    match validate_number b "b" with
    | .error e => .error e
    | .ok b1 => .ok (pyAdd a1 b1)

/-- Source `multiply(a, b)`: validate both parameters, return the product;
the `except` clause re-raises unchanged. -/
def multiply (a b : PyVal) : Except Err PyVal :=
  match validate_number a "a" with
  | .error e => .error e
  | .ok a1 =>
    match validate_number b "b" with
    | .error e => .error e
    | .ok b1 => .ok (pyMul a1 b1)

/-- Source `subtract(a, b)`: validate both parameters, return the
difference; the `except` clause re-raises unchanged. -/
def subtract (a b : PyVal) : Except Err PyVal :=
  match validate_number a "a" with
  | .error e => .error e
  | .ok a1 =>
    match validate_number b "b" with
    | .error e => .error e
    | .ok b1 => .ok (pySub a1 b1)

/-- The `try` body of source `divide(a, b)`: validate both parameters,
raise on `b == 0`, divide, raise if the result leaves
`[MIN_INPUT_VALUE, MAX_INPUT_VALUE]`, else return it. -/
def divideBody (a b : PyVal) : Except Err PyVal :=
  match validate_number a "a" with
  | .error e => .error e
  | .ok a1 =>
    match validate_number b "b" with
    | .error e => .error e
    | .ok b1 =>
      if b1.toQ = 0 then .error .divByZero
      else
        let result := pyDiv a1 b1
        if inRange result = false then .error (.divResultRange result)
        else .ok result

/-- Source `divide(a, b)`: the body under a handler that re-raises a
`ValueError` unchanged and wraps any other exception in
`ValueError("Failed to perform division: ...")`. -/
def divide (a b : PyVal) : Except Err PyVal :=
  match divideBody a b with
  | .ok v => .ok v
  | .error e => if errClass e = .valueError then .error e else .error (.wrappedDiv e)

/-- Outcome of Python's `**` on two validated numerics: a value, or one of
the exceptions CPython's operator itself raises, or a complex number. -/
inductive PowOut where
  | ok (v : PyVal)
  | zeroDiv
  | complexRes
  | overflowed

/-- Python `base ** exponent` on two validated numerics.

* Both int-like: an exact arbitrary-precision `int` for a nonnegative
  exponent; `ZeroDivisionError` for `0` to a negative power; otherwise the
  exact rational float value (its magnitude is at most 1, so it cannot
  overflow).
* Otherwise float power: `0.0` to a negative power is `ZeroDivisionError`,
  `0.0 ** 0` is `1.0`, `0.0` to a positive power is `0.0`; an
  integer-valued exponent gives the exact rational power, except that
  CPython's float `**` raises `OverflowError` when that value passes
  `DBL_MAX`; a negative base with a non-integer exponent yields a complex
  number; a positive base with a non-integer exponent has an irrational
  value in general and is given by the oracle `rpow`. -/
def pyPow (rpow : ℚ → ℚ → PyFloat) (a b : PyVal) : PowOut :=
  if a.isIntLike && b.isIntLike then
    if 0 ≤ b.intVal then .ok (.vint (a.intVal ^ b.intVal.toNat))
    else if a.intVal = 0 then .zeroDiv
    else .ok (.vfloat (floatOfQ (a.toQ ^ b.intVal)))
  else
    if a.toQ = 0 then
      if b.toQ < 0 then .zeroDiv
      else if b.toQ = 0 then .ok (.vfloat (.finite 1))
      else .ok (.vfloat (.finite 0))
    else if b.toQ.den = 1 then
      if DBL_MAX < |a.toQ ^ b.toQ.num| then .overflowed
      else .ok (.vfloat (.finite (a.toQ ^ b.toQ.num)))
    else if a.toQ < 0 then .complexRes
    else .ok (.vfloat (rpow a.toQ b.toQ))

/-- The `try` body of source `power(base, exponent)`: validate both
parameters, raise on `0 ** 0`, raise when `abs(exponent) > 1000`, compute
`base ** exponent` (mapping the exceptions `**` itself can raise to their
sites: `ZeroDivisionError` from the operator, `TypeError` from
`math.isnan` on a complex result, `OverflowError` from the operator), then
run the result checks: `math.isnan(result)` itself raises `OverflowError`
for an `int` result beyond double range (`intOverflows`), and otherwise
the body raises if the result is NaN, infinite, or out of range, else
returns it. -/
def powerBody (rpow : ℚ → ℚ → PyFloat) (base exponent : PyVal) : Except Err PyVal :=
  match validate_number base "base" with
  | .error e => .error e
  | .ok b1 =>
    match validate_number exponent "exponent" with
    | .error e => .error e
    | .ok e1 =>
      if b1.toQ = 0 ∧ e1.toQ = 0 then .error .powUndefined
      else if 1000 < |e1.toQ| then .error (.powExpTooLarge e1)
      else
        match pyPow rpow b1 e1 with
        | .zeroDiv => .error .zeroDivPow
        | .complexRes => .error .complexChk
        | .overflowed => .error .mathOverflow
        | .ok result =>
          if result.intOverflows = true then .error .intTooLarge
          else if result.isNaNVal = true then .error .powNaN
          else if result.isInfVal = true then .error .powInfinite
          else if inRange result = false then .error (.powRange result)
          else .ok result

/-- Source `power(base, exponent)`: the body under a handler that re-raises
a `ValueError` or `OverflowError` unchanged and wraps any other exception
in `ValueError("Failed to perform power operation: ...")`. -/
def power (rpow : ℚ → ℚ → PyFloat) (base exponent : PyVal) : Except Err PyVal :=
  match powerBody rpow base exponent with
  | .ok v => .ok v
  | .error e =>
    if errClass e = .valueError ∨ errClass e = .overflowError then .error e
    else .error (.wrappedPow e)

/-- Modelled from the spec: the invocation gateway (spec sections 2 and 4.3)
is supplied by the external MCP framework (`FastMCP` / `ClientSession`),
whose code is not part of this repository; only `@mcp.tool()` registrations
and the client's `session.call_tool` calls appear in `src/`.  Per the spec,
an invocation yields the operation's success value, propagates its typed
failure unchanged, or fails with UnknownTool / MissingArgument before any
arithmetic executes. -/
inductive InvokeResult where
  | ok (v : PyVal)
  | opFailure (e : Err)
  | unknownTool (name : String)
  | missingArgument (p : String)

/-- Modelled from the spec: "propagates its success value or its typed
failure unchanged" — the embedding of an operation's outcome into an
invocation result. -/
def liftResult : Except Err PyVal → InvokeResult
  | .ok v => .ok v
  | .error e => .opFailure e

/-- Modelled from the spec: the static registry of tools defined at process
start — each `@mcp.tool()` function under its own name, with its declared
parameter names in order. -/
def registry (rpow : ℚ → ℚ → PyFloat) :
    String → Option (String × String × (PyVal → PyVal → Except Err PyVal))
  | "add" => some ("a", "b", add)
  | "multiply" => some ("a", "b", multiply)
  | "subtract" => some ("a", "b", subtract)
  | "divide" => some ("a", "b", divide)
  | "power" => some ("base", "exponent", power rpow)
  | _ => none

/-- Modelled from the spec: `invoke(tool_name, arguments)` — look the tool
up (UnknownTool if absent), map arguments by declared parameter name to the
positional parameters (MissingArgument if a required key is absent),
delegate, and propagate the outcome unchanged. -/
def invoke (rpow : ℚ → ℚ → PyFloat) (tool : String)
    (args : List (String × PyVal)) : InvokeResult :=
  match registry rpow tool with
  | none => .unknownTool tool
  | some (p1, p2, f) =>
    match args.lookup p1 with
    | none => .missingArgument p1
    | some v1 =>
      match args.lookup p2 with
      | none => .missingArgument p2
      | some v2 => liftResult (f v1 v2)

end CalcServer

namespace CalcServer

theorem MAX_lt_DBL : MAX_INPUT_VALUE < DBL_MAX := by
  norm_num [MAX_INPUT_VALUE, DBL_MAX]

theorem isNumeric_of_intOverflows {v : PyVal} (h : v.intOverflows = true) :
    v.isNumeric = true := by
  cases v <;> first | rfl | simp [PyVal.intOverflows] at h

theorem inRange_eq_false_of_intOverflows {v : PyVal} (h : v.intOverflows = true) :
    inRange v = false := by
  cases v with
  | vint n =>
    have hgt : DBL_MAX < |(n : ℚ)| := by simpa [PyVal.intOverflows] using h
    have hd := MAX_lt_DBL
    rw [Bool.eq_false_iff]
    intro hc
    have hle : |(n : ℚ)| ≤ MAX_INPUT_VALUE := by
      rw [abs_le]
      simpa [inRange, PyVal.toQ] using hc
    linarith
  | vbool b => simp [PyVal.intOverflows] at h
  | vfloat f => simp [PyVal.intOverflows] at h
  | vstr s => simp [PyVal.intOverflows] at h
  | vlist l => simp [PyVal.intOverflows] at h

theorem intOverflows_eq_false_of_inRange {v : PyVal} (h : inRange v = true) :
    v.intOverflows = false := by
  cases hO : v.intOverflows
  · rfl
  · rw [inRange_eq_false_of_intOverflows hO] at h
    exact absurd h (by simp)

/-- Coarse validation characterization: `validate_number` succeeds exactly
on valid Numbers, and then returns its argument unchanged. -/
theorem validate_number_ok_iff (v : PyVal) (p : String) (w : PyVal) :
    validate_number v p = .ok w ↔ (validNumber v = true ∧ w = v) := by
  cases hO : v.intOverflows with
  | false =>
    cases hN : v.isNumeric <;> cases hnan : v.isNaNVal <;> cases hinf : v.isInfVal
      <;> cases hR : inRange v
      <;> simp [validate_number, validNumber, hN, hnan, hinf, hR, hO, eq_comm]
  | true =>
    have hR := inRange_eq_false_of_intOverflows hO
    have hN := isNumeric_of_intOverflows hO
    simp [validate_number, validNumber, hN, hO, hR]

theorem validate_number_ok_of_valid {v : PyVal} (h : validNumber v = true) (p : String) :
    validate_number v p = .ok v :=
  (validate_number_ok_iff v p v).2 ⟨h, rfl⟩

theorem validate_number_error_imp {v : PyVal} {p : String} {e : Err}
    (h : validate_number v p = .error e) : validNumber v = false := by
  cases hv : validNumber v
  · rfl
  · rw [validate_number_ok_of_valid hv p] at h
    exact Except.noConfusion h

theorem validNumber_eq_true_iff (v : PyVal) :
    validNumber v = true ↔
      (v.isNumeric = true ∧ v.isNaNVal = false ∧ v.isInfVal = false ∧ inRange v = true) := by
  simp [validNumber, Bool.and_eq_true, Bool.not_eq_true', and_assoc]

theorem floatOfQ_of_abs_le {q : ℚ} (h : |q| ≤ MAX_INPUT_VALUE) : floatOfQ q = .finite q := by
  have h1 := abs_le.mp h
  have hd := MAX_lt_DBL
  unfold floatOfQ
  rw [if_neg (not_lt.mpr (by linarith [h1.1, h1.2])),
    if_neg (not_lt.mpr (by linarith [h1.1, h1.2]))]

theorem inRange_vfloat_finite (q : ℚ) :
    inRange (.vfloat (.finite q)) = true ↔ |q| ≤ MAX_INPUT_VALUE := by
  simp [inRange, PyVal.toQ, abs_le]

theorem inRange_floatOfQ_false {q : ℚ} (h : MAX_INPUT_VALUE < |q|) :
    inRange (.vfloat (floatOfQ q)) = false := by
  unfold floatOfQ
  split_ifs with h1 h2
  · rfl
  · rfl
  · rw [Bool.eq_false_iff]
    intro hc
    exact absurd ((inRange_vfloat_finite q).1 hc) (not_le.mpr h)

theorem floatOfQ_not_nan (q : ℚ) : (PyVal.vfloat (floatOfQ q)).isNaNVal = false := by
  unfold floatOfQ
  split_ifs <;> rfl

theorem floatOfQ_neg (q : ℚ) : floatOfQ (-q) = (floatOfQ q).neg := by
  have hd : (0 : ℚ) < DBL_MAX := by norm_num [DBL_MAX]
  by_cases h1 : DBL_MAX < q
  · have e1 : floatOfQ q = .inf false := by unfold floatOfQ; rw [if_pos h1]
    have e2 : floatOfQ (-q) = .inf true := by
      unfold floatOfQ
      rw [if_neg (not_lt.mpr (by linarith)), if_pos (by linarith)]
    rw [e1, e2]; rfl
  · by_cases h2 : q < -DBL_MAX
    · have e1 : floatOfQ q = .inf true := by
        unfold floatOfQ; rw [if_neg h1, if_pos h2]
      have e2 : floatOfQ (-q) = .inf false := by
        unfold floatOfQ; rw [if_pos (by linarith)]
      rw [e1, e2]; rfl
    · have e1 : floatOfQ q = .finite q := by
        unfold floatOfQ; rw [if_neg h1, if_neg h2]
      have e2 : floatOfQ (-q) = .finite (-q) := by
        unfold floatOfQ
        rw [if_neg (not_lt.mpr (by linarith [not_lt.mp h2])),
          if_neg (not_lt.mpr (by linarith [not_lt.mp h1]))]
      rw [e1, e2]; rfl

theorem validNumber_of_inRange {v : PyVal} (h1 : v.isNumeric = true) (h2 : inRange v = true) :
    validNumber v = true := by
  cases v with
  | vbool b => simp [validNumber, PyVal.isNumeric, PyVal.isNaNVal, PyVal.isInfVal, h2]
  | vint n => simp [validNumber, PyVal.isNumeric, PyVal.isNaNVal, PyVal.isInfVal, h2]
  | vfloat f =>
    cases f with
    | finite q => simp [validNumber, PyVal.isNumeric, PyVal.isNaNVal, PyVal.isInfVal, h2]
    | inf b => simp [inRange] at h2
    | nan => simp [inRange] at h2
  | vstr s => simp [PyVal.isNumeric] at h1
  | vlist l => simp [PyVal.isNumeric] at h1

theorem pyAdd_comm (a b : PyVal) : pyAdd a b = pyAdd b a := by
  unfold pyAdd
  rw [Bool.and_comm, Int.add_comm a.intVal b.intVal, Rat.add_comm a.toQ b.toQ]

theorem pyAdd_not_nan (a b : PyVal) : (pyAdd a b).isNaNVal = false := by
  unfold pyAdd
  split
  · rfl
  · exact floatOfQ_not_nan _

theorem pySub_not_nan (a b : PyVal) : (pySub a b).isNaNVal = false := by
  unfold pySub
  split
  · rfl
  · exact floatOfQ_not_nan _

theorem pyMul_not_nan (a b : PyVal) : (pyMul a b).isNaNVal = false := by
  unfold pyMul
  split
  · rfl
  · exact floatOfQ_not_nan _

theorem pySub_antisym (a b : PyVal) : pySub a b = pyNegVal (pySub b a) := by
  unfold pySub
  rw [Bool.and_comm]
  split
  · show PyVal.vint _ = pyNegVal (.vint _)
    simp [pyNegVal, neg_sub]
  · show PyVal.vfloat _ = pyNegVal (.vfloat _)
    show PyVal.vfloat (floatOfQ (a.toQ - b.toQ)) = .vfloat (floatOfQ (b.toQ - a.toQ)).neg
    rw [← floatOfQ_neg, neg_sub]

theorem add_ok_iff (a b v : PyVal) :
    add a b = .ok v ↔ (validNumber a = true ∧ validNumber b = true ∧ v = pyAdd a b) := by
  constructor
  · intro h
    unfold add at h
    cases h1 : validate_number a "a" with
    | error e => rw [h1] at h; exact Except.noConfusion h
    | ok a1 =>
      rw [h1] at h
      cases h2 : validate_number b "b" with
      | error e => rw [h2] at h; exact Except.noConfusion h
      | ok b1 =>
        rw [h2] at h
        obtain ⟨hva, ha⟩ := (validate_number_ok_iff a _ a1).1 h1
        obtain ⟨hvb, hb⟩ := (validate_number_ok_iff b _ b1).1 h2
        injection h with h
        exact ⟨hva, hvb, by rw [← h, ha, hb]⟩
  · rintro ⟨hva, hvb, rfl⟩
    unfold add
    rw [validate_number_ok_of_valid hva, validate_number_ok_of_valid hvb]

theorem subtract_ok_iff (a b v : PyVal) :
    subtract a b = .ok v ↔ (validNumber a = true ∧ validNumber b = true ∧ v = pySub a b) := by
  constructor
  · intro h
    unfold subtract at h
    cases h1 : validate_number a "a" with
    | error e => rw [h1] at h; exact Except.noConfusion h
    | ok a1 =>
      rw [h1] at h
      cases h2 : validate_number b "b" with
      | error e => rw [h2] at h; exact Except.noConfusion h
      | ok b1 =>
        rw [h2] at h
        obtain ⟨hva, ha⟩ := (validate_number_ok_iff a _ a1).1 h1
        obtain ⟨hvb, hb⟩ := (validate_number_ok_iff b _ b1).1 h2
        injection h with h
        exact ⟨hva, hvb, by rw [← h, ha, hb]⟩
  · rintro ⟨hva, hvb, rfl⟩
    unfold subtract
    rw [validate_number_ok_of_valid hva, validate_number_ok_of_valid hvb]

theorem multiply_ok_iff (a b v : PyVal) :
    multiply a b = .ok v ↔ (validNumber a = true ∧ validNumber b = true ∧ v = pyMul a b) := by
  constructor
  · intro h
    unfold multiply at h
    cases h1 : validate_number a "a" with
    | error e => rw [h1] at h; exact Except.noConfusion h
    | ok a1 =>
      rw [h1] at h
      cases h2 : validate_number b "b" with
      | error e => rw [h2] at h; exact Except.noConfusion h
      | ok b1 =>
        rw [h2] at h
        obtain ⟨hva, ha⟩ := (validate_number_ok_iff a _ a1).1 h1
        obtain ⟨hvb, hb⟩ := (validate_number_ok_iff b _ b1).1 h2
        injection h with h
        exact ⟨hva, hvb, by rw [← h, ha, hb]⟩
  · rintro ⟨hva, hvb, rfl⟩
    unfold multiply
    rw [validate_number_ok_of_valid hva, validate_number_ok_of_valid hvb]

theorem inRange_vint (n : ℤ) : inRange (.vint n) = true ↔ |(n : ℚ)| ≤ MAX_INPUT_VALUE := by
  simp [inRange, PyVal.toQ, abs_le]

theorem validNumber_vint (n : ℤ) :
    validNumber (.vint n) = true ↔ |(n : ℚ)| ≤ MAX_INPUT_VALUE := by
  simp [validNumber, PyVal.isNumeric, PyVal.isNaNVal, PyVal.isInfVal, inRange,
    PyVal.toQ, abs_le]

theorem toQ_intLike {v : PyVal} (h : v.isIntLike = true) : v.toQ = (v.intVal : ℚ) := by
  cases v with
  | vbool b => cases b <;> simp [PyVal.toQ, PyVal.intVal]
  | vint n => rfl
  | vfloat f => simp [PyVal.isIntLike] at h
  | vstr s => simp [PyVal.isIntLike] at h
  | vlist l => simp [PyVal.isIntLike] at h

theorem divideBody_eq_of_valid {a b : PyVal} (hva : validNumber a = true)
    (hvb : validNumber b = true) :
    divideBody a b =
      if b.toQ = 0 then .error .divByZero
      else if inRange (pyDiv a b) = false then .error (.divResultRange (pyDiv a b))
      else .ok (pyDiv a b) := by
  unfold divideBody
  rw [validate_number_ok_of_valid hva, validate_number_ok_of_valid hvb]

theorem divideBody_ok_valid {a b v : PyVal} (h : divideBody a b = .ok v) :
    validNumber v = true := by
  unfold divideBody at h
  cases h1 : validate_number a "a" with
  | error e => rw [h1] at h; exact Except.noConfusion h
  | ok a1 =>
    rw [h1] at h
    cases h2 : validate_number b "b" with
    | error e => rw [h2] at h; exact Except.noConfusion h
    | ok b1 =>
      rw [h2] at h
      dsimp only at h
      by_cases hz : b1.toQ = 0
      · rw [if_pos hz] at h; exact Except.noConfusion h
      · rw [if_neg hz] at h
        by_cases hr : inRange (pyDiv a1 b1) = false
        · simp only [hr, if_true] at h
          exact Except.noConfusion h
        · simp only [hr, if_false] at h
          injection h with h
          subst h
          exact validNumber_of_inRange rfl (Bool.not_eq_false _ ▸ Bool.of_not_eq_false hr)

theorem divide_ok_iff (a b v : PyVal) : divide a b = .ok v ↔ divideBody a b = .ok v := by
  unfold divide
  cases h : divideBody a b with
  | ok w => simp
  | error e =>
    dsimp only
    constructor
    · intro hc
      split at hc <;> exact Except.noConfusion hc
    · intro hc
      exact Except.noConfusion hc

theorem divide_error_of_body {a b : PyVal} {e : Err} (h : divideBody a b = .error e) :
    divide a b = .error (if errClass e = .valueError then e else .wrappedDiv e) := by
  unfold divide
  rw [h]
  dsimp only
  split <;> rfl

theorem pyPow_ok_numeric {rpow : ℚ → ℚ → PyFloat} {a b v : PyVal}
    (h : pyPow rpow a b = .ok v) : v.isNumeric = true := by
  unfold pyPow at h
  split_ifs at h <;> (injection h with h; subst h; rfl)

theorem powerBody_ok_valid {rpow : ℚ → ℚ → PyFloat} {a b v : PyVal}
    (h : powerBody rpow a b = .ok v) : validNumber v = true := by
  unfold powerBody at h
  cases h1 : validate_number a "base" with
  | error e => rw [h1] at h; exact Except.noConfusion h
  | ok a1 =>
    rw [h1] at h
    cases h2 : validate_number b "exponent" with
    | error e => rw [h2] at h; exact Except.noConfusion h
    | ok e1 =>
      rw [h2] at h
      dsimp only at h
      by_cases hz : a1.toQ = 0 ∧ e1.toQ = 0
      · rw [if_pos hz] at h; exact Except.noConfusion h
      · rw [if_neg hz] at h
        by_cases hl : 1000 < |e1.toQ|
        · rw [if_pos hl] at h; exact Except.noConfusion h
        · rw [if_neg hl] at h
          cases hp : pyPow rpow a1 e1 with
          | zeroDiv => rw [hp] at h; exact Except.noConfusion h
          | complexRes => rw [hp] at h; exact Except.noConfusion h
          | overflowed => rw [hp] at h; exact Except.noConfusion h
          | ok r =>
            rw [hp] at h
            dsimp only at h
            by_cases hOo : r.intOverflows = true
            · rw [if_pos hOo] at h; exact Except.noConfusion h
            · rw [if_neg hOo] at h
              by_cases hn : r.isNaNVal = true
              · rw [if_pos hn] at h; exact Except.noConfusion h
              · rw [if_neg hn] at h
                by_cases hi : r.isInfVal = true
                · rw [if_pos hi] at h; exact Except.noConfusion h
                · rw [if_neg hi] at h
                  by_cases hr : inRange r = false
                  · rw [if_pos hr] at h; exact Except.noConfusion h
                  · rw [if_neg hr] at h
                    injection h with h
                    subst h
                    exact validNumber_of_inRange (pyPow_ok_numeric hp)
                      (Bool.not_eq_false _ ▸ Bool.of_not_eq_false hr)

theorem power_ok_iff (rpow : ℚ → ℚ → PyFloat) (a b v : PyVal) :
    power rpow a b = .ok v ↔ powerBody rpow a b = .ok v := by
  unfold power
  cases h : powerBody rpow a b with
  | ok w => simp
  | error e =>
    dsimp only
    constructor
    · intro hc
      split at hc <;> exact Except.noConfusion hc
    · intro hc
      exact Except.noConfusion hc

theorem power_error_of_body {rpow : ℚ → ℚ → PyFloat} {a b : PyVal} {e : Err}
    (h : powerBody rpow a b = .error e) :
    power rpow a b =
      .error (if errClass e = .valueError ∨ errClass e = .overflowError then e
        else .wrappedPow e) := by
  unfold power
  rw [h]
  dsimp only
  split <;> rfl

theorem validNumber_vint_of_small {n : ℤ} (h1 : -1000000 ≤ n) (h2 : n ≤ 1000000) :
    validNumber (.vint n) = true := by
  rw [validNumber_vint, abs_le]
  have hbig : (1000000 : ℚ) ≤ MAX_INPUT_VALUE := by norm_num [MAX_INPUT_VALUE]
  have c1 : ((n : ℚ)) ≤ 1000000 := by exact_mod_cast h2
  have c2 : (-1000000 : ℚ) ≤ (n : ℚ) := by exact_mod_cast h1
  constructor <;> linarith

theorem add_error_imp {a b : PyVal} {e : Err} (h : add a b = .error e) :
    validate_number a "a" = .error e ∨ validate_number b "b" = .error e := by
  unfold add at h
  cases h1 : validate_number a "a" with
  | error e1 =>
    rw [h1] at h; dsimp only at h
    injection h with h
    subst h
    exact Or.inl rfl
  | ok a1 =>
    rw [h1] at h; dsimp only at h
    cases h2 : validate_number b "b" with
    | error e2 =>
      rw [h2] at h; dsimp only at h
      injection h with h
      subst h
      exact Or.inr rfl
    | ok b1 =>
      rw [h2] at h; dsimp only at h
      exact Except.noConfusion h

theorem subtract_error_imp {a b : PyVal} {e : Err} (h : subtract a b = .error e) :
    validate_number a "a" = .error e ∨ validate_number b "b" = .error e := by
  unfold subtract at h
  cases h1 : validate_number a "a" with
  | error e1 =>
    rw [h1] at h; dsimp only at h
    injection h with h
    subst h
    exact Or.inl rfl
  | ok a1 =>
    rw [h1] at h; dsimp only at h
    cases h2 : validate_number b "b" with
    | error e2 =>
      rw [h2] at h; dsimp only at h
      injection h with h
      subst h
      exact Or.inr rfl
    | ok b1 =>
      rw [h2] at h; dsimp only at h
      exact Except.noConfusion h

theorem multiply_error_imp {a b : PyVal} {e : Err} (h : multiply a b = .error e) :
    validate_number a "a" = .error e ∨ validate_number b "b" = .error e := by
  unfold multiply at h
  cases h1 : validate_number a "a" with
  | error e1 =>
    rw [h1] at h; dsimp only at h
    injection h with h
    subst h
    exact Or.inl rfl
  | ok a1 =>
    rw [h1] at h; dsimp only at h
    cases h2 : validate_number b "b" with
    | error e2 =>
      rw [h2] at h; dsimp only at h
      injection h with h
      subst h
      exact Or.inr rfl
    | ok b1 =>
      rw [h2] at h; dsimp only at h
      exact Except.noConfusion h

theorem powerBody_checks_pass {rpow : ℚ → ℚ → PyFloat} {a e r : PyVal}
    (hva : validNumber a = true) (hve : validNumber e = true)
    (hc1 : ¬(a.toQ = 0 ∧ e.toQ = 0)) (hc2 : ¬(1000 < |e.toQ|))
    (hp : pyPow rpow a e = .ok r) (hvr : validNumber r = true) :
    powerBody rpow a e = .ok r := by
  unfold powerBody
  rw [validate_number_ok_of_valid hva, validate_number_ok_of_valid hve]
  dsimp only
  rw [if_neg hc1, if_neg hc2, hp]
  obtain ⟨hn, hna, hni, hr⟩ := (validNumber_eq_true_iff r).1 hvr
  simp [intOverflows_eq_false_of_inRange hr, hna, hni, hr]

theorem powerBody_zeroDiv {rpow : ℚ → ℚ → PyFloat} {a e : PyVal}
    (hva : validNumber a = true) (hve : validNumber e = true)
    (hc1 : ¬(a.toQ = 0 ∧ e.toQ = 0)) (hc2 : ¬(1000 < |e.toQ|))
    (hp : pyPow rpow a e = .zeroDiv) :
    powerBody rpow a e = .error .zeroDivPow := by
  unfold powerBody
  rw [validate_number_ok_of_valid hva, validate_number_ok_of_valid hve]
  dsimp only
  rw [if_neg hc1, if_neg hc2, hp]

theorem power_expTooLarge (rpow : ℚ → ℚ → PyFloat) {base e : PyVal}
    (hvb : validNumber base = true) (hve : validNumber e = true)
    (hgt : 1000 < |e.toQ|) :
    power rpow base e = .error (.powExpTooLarge e) := by
  have hne : ¬(base.toQ = 0 ∧ e.toQ = 0) := by
    rintro ⟨-, h0⟩
    rw [h0] at hgt
    norm_num at hgt
  have hbody : powerBody rpow base e = .error (.powExpTooLarge e) := by
    unfold powerBody
    rw [validate_number_ok_of_valid hvb, validate_number_ok_of_valid hve]
    dsimp only
    rw [if_neg hne, if_pos hgt]
  have := power_error_of_body hbody
  simpa [errClass] using this

theorem power_zero_negexp (rpow : ℚ → ℚ → PyFloat) {e : PyVal}
    (hve : validNumber e = true) (hneg : e.toQ < 0) (hle : |e.toQ| ≤ 1000) :
    power rpow (.vint 0) e = .error (.wrappedPow .zeroDivPow) := by
  have hv0 : validNumber (.vint 0) = true :=
    validNumber_vint_of_small (by norm_num) (by norm_num)
  have hc1 : ¬((PyVal.vint 0).toQ = 0 ∧ e.toQ = 0) := by
    rintro ⟨-, h0⟩
    rw [h0] at hneg
    norm_num at hneg
  have hc2 : ¬(1000 < |e.toQ|) := not_lt.mpr hle
  have hp : pyPow rpow (.vint 0) e = .zeroDiv := by
    unfold pyPow
    by_cases hI : e.isIntLike = true
    · rw [if_pos (by rw [hI]; rfl)]
      have hIn : e.intVal < 0 := by
        have := hneg
        rw [toQ_intLike hI] at this
        exact_mod_cast this
      rw [if_neg (not_le.mpr hIn), if_pos (by simp [PyVal.intVal])]
    · rw [if_neg (by simp [Bool.eq_false_iff.mpr hI])]
      rw [if_pos (by simp [PyVal.toQ]), if_pos hneg]
  have hbody := powerBody_zeroDiv hv0 hve hc1 hc2 hp
  have := power_error_of_body hbody
  simpa [errClass] using this

theorem power_zero_zero (rpow : ℚ → ℚ → PyFloat) :
    power rpow (.vint 0) (.vint 0) = .error .powUndefined := by
  have hv0 : validNumber (.vint 0) = true :=
    validNumber_vint_of_small (by norm_num) (by norm_num)
  have hbody : powerBody rpow (.vint 0) (.vint 0) = .error .powUndefined := by
    unfold powerBody
    rw [validate_number_ok_of_valid hv0, validate_number_ok_of_valid hv0]
    dsimp only
    rw [if_pos (by norm_num [PyVal.toQ])]
  have := power_error_of_body hbody
  simpa [errClass] using this

theorem power_exp_zero (rpow : ℚ → ℚ → PyFloat) {a : PyVal}
    (hva : validNumber a = true) (hne : a.toQ ≠ 0) :
    ∃ r, power rpow a (.vint 0) = .ok r ∧ r.toQ = 1 := by
  have hv0 : validNumber (.vint 0) = true :=
    validNumber_vint_of_small (by norm_num) (by norm_num)
  have hc1 : ¬(a.toQ = 0 ∧ (PyVal.vint 0).toQ = 0) := fun hc => hne hc.1
  have hc2 : ¬(1000 < |(PyVal.vint 0).toQ|) := by norm_num [PyVal.toQ]
  by_cases hI : a.isIntLike = true
  · refine ⟨.vint 1, ?_, by norm_num [PyVal.toQ]⟩
    rw [power_ok_iff]
    refine powerBody_checks_pass hva hv0 hc1 hc2 ?_
      (validNumber_vint_of_small (by norm_num) (by norm_num))
    unfold pyPow
    rw [if_pos (by rw [hI]; rfl)]
    rw [if_pos (by simp [PyVal.intVal])]
    simp [PyVal.intVal]
  · refine ⟨.vfloat (.finite 1), ?_, by norm_num [PyVal.toQ]⟩
    rw [power_ok_iff]
    have hv1 : validNumber (.vfloat (.finite 1)) = true := by
      simp [validNumber, PyVal.isNumeric, PyVal.isNaNVal, PyVal.isInfVal, inRange,
        PyVal.toQ, MAX_INPUT_VALUE]
      norm_num
    refine powerBody_checks_pass hva hv0 hc1 hc2 ?_ hv1
    unfold pyPow
    rw [if_neg (by simp [Bool.eq_false_iff.mpr hI])]
    rw [if_neg hne]
    have hden : (PyVal.vint 0).toQ.den = 1 := by norm_num [PyVal.toQ]
    have hnum : (PyVal.vint 0).toQ.num = 0 := by norm_num [PyVal.toQ]
    rw [if_pos hden, hnum]
    rw [zpow_zero]
    rw [if_neg (by norm_num [DBL_MAX])]

theorem power_zero_posexp (rpow : ℚ → ℚ → PyFloat) {e : PyVal}
    (hve : validNumber e = true) (hpos : 0 < e.toQ) (hle : e.toQ ≤ 1000) :
    ∃ r, power rpow (.vint 0) e = .ok r ∧ r.toQ = 0 := by
  have hv0 : validNumber (.vint 0) = true :=
    validNumber_vint_of_small (by norm_num) (by norm_num)
  have hc1 : ¬((PyVal.vint 0).toQ = 0 ∧ e.toQ = 0) := by
    rintro ⟨-, h0⟩
    rw [h0] at hpos
    norm_num at hpos
  have hc2 : ¬(1000 < |e.toQ|) := by
    rw [abs_of_pos hpos]
    exact not_lt.mpr hle
  by_cases hI : e.isIntLike = true
  · refine ⟨.vint 0, ?_, by norm_num [PyVal.toQ]⟩
    rw [power_ok_iff]
    refine powerBody_checks_pass hv0 hve hc1 hc2 ?_ hv0
    unfold pyPow
    rw [if_pos (by rw [hI]; rfl)]
    have hIn : 0 < e.intVal := by
      have := hpos
      rw [toQ_intLike hI] at this
      exact_mod_cast this
    rw [if_pos (le_of_lt hIn)]
    have : (PyVal.vint 0).intVal = 0 := rfl
    rw [this, zero_pow (by omega : e.intVal.toNat ≠ 0)]
  · refine ⟨.vfloat (.finite 0), ?_, by norm_num [PyVal.toQ]⟩
    rw [power_ok_iff]
    have hvz : validNumber (.vfloat (.finite 0)) = true := by
      simp [validNumber, PyVal.isNumeric, PyVal.isNaNVal, PyVal.isInfVal, inRange,
        PyVal.toQ, MAX_INPUT_VALUE]
    refine powerBody_checks_pass hv0 hve hc1 hc2 ?_ hvz
    unfold pyPow
    rw [if_neg (by simp [Bool.eq_false_iff.mpr hI])]
    rw [if_pos (by norm_num [PyVal.toQ])]
    rw [if_neg (not_lt.mpr (le_of_lt hpos)), if_neg (ne_of_gt hpos)]

theorem validNumber_vbool (b : Bool) : validNumber (.vbool b) = true := by
  cases b <;>
    simp [validNumber, PyVal.isNumeric, PyVal.isNaNVal, PyVal.isInfVal, inRange,
      PyVal.toQ, MAX_INPUT_VALUE] <;> norm_num

/-- C2 counterexample: the integer `10^400` is numeric, not NaN, not
infinite, and lies outside `[-1e308, 1e308]`, yet `validate_number` does
not fail with the OutOfRange `ValueError`: CPython's `math.isnan` converts
its argument to a double and itself raises
`OverflowError("int too large to convert to float")` for ints beyond
double range, before the range check is ever reached. -/
theorem C2_counterexample :
    validate_number (.vint (10 ^ 400)) "x" = .error .intTooLarge ∧
    errClass Err.intTooLarge = .overflowError ∧
    errMsg Err.intTooLarge = "int too large to convert to float" ∧
    Err.intTooLarge ≠ .outOfRange "x" (.vint (10 ^ 400)) := by
  refine ⟨?_, rfl, rfl, fun h => Err.noConfusion h⟩
  have hO : (PyVal.vint (10 ^ 400)).intOverflows = true := by
    simp only [PyVal.intOverflows, decide_eq_true_eq, DBL_MAX]
    push_cast
    rw [abs_of_pos (by positivity)]
    norm_num
  simp [validate_number, PyVal.isNumeric, hO]

/-- C2 amended: `validate_number(v, name)` returns `v` unchanged exactly
when `v` is numeric (an `int`, including `bool`, or a `float`), not NaN,
not infinite, and within `[-1e308, 1e308]`; otherwise it fails with the
InvalidType error for non-numeric values, the `OverflowError` that
`math.isnan` itself raises for ints beyond double range
(`C2_counterexample`), the InvalidValue errors for NaN and infinity, and
the OutOfRange error for the remaining (double-convertible) values outside
the interval. -/
theorem C2_validate_number_characterization : ∀ (v : PyVal) (p : String),
    (validate_number v p = .ok v ↔ validNumber v = true) ∧
    (∀ w, validate_number v p = .ok w → w = v) ∧
    (v.isNumeric = false → validate_number v p = .error (.invalidType p v)) ∧
    (v.intOverflows = true → validate_number v p = .error .intTooLarge) ∧
    (v.isNaNVal = true → validate_number v p = .error (.nanParam p)) ∧
    (v.isNumeric = true → v.isNaNVal = false → v.isInfVal = true →
      validate_number v p = .error (.infParam p)) ∧
    (v.isNumeric = true → v.intOverflows = false → v.isNaNVal = false →
      v.isInfVal = false → inRange v = false →
      validate_number v p = .error (.outOfRange p v)) := by
  intro v p
  refine ⟨⟨fun h => ((validate_number_ok_iff v p v).1 h).1,
      fun h => validate_number_ok_of_valid h p⟩,
    fun w h => ((validate_number_ok_iff v p w).1 h).2, ?_, ?_, ?_, ?_, ?_⟩
  · intro h
    simp [validate_number, h]
  · intro h
    simp [validate_number, isNumeric_of_intOverflows h, h]
  · intro h
    cases v with
    | vfloat f =>
      cases f with
      | nan =>
        simp [validate_number, PyVal.isNumeric, PyVal.isNaNVal, PyVal.intOverflows]
      | finite q => simp [PyVal.isNaNVal] at h
      | inf s => simp [PyVal.isNaNVal] at h
    | vbool b => simp [PyVal.isNaNVal] at h
    | vint n => simp [PyVal.isNaNVal] at h
    | vstr s => simp [PyVal.isNaNVal] at h
    | vlist l => simp [PyVal.isNaNVal] at h
  · intro h1 h2 h3
    have hO : v.intOverflows = false := by
      cases v <;> simp_all [PyVal.isInfVal, PyVal.intOverflows]
    simp [validate_number, h1, hO, h2, h3]
  · intro h1 h2 h3 h4 h5
    simp [validate_number, h1, h2, h3, h4, h5]

/-- C9: booleans pass input validation unchanged, because Python's `bool`
is a subtype of `int` and so satisfies the `isinstance(value, (int, float))`
check, and `add(True, True)` returns the integer `2`. -/
theorem C9_booleans_are_numeric :
    (∀ (b : Bool) (p : String), validate_number (.vbool b) p = .ok (.vbool b)) ∧
    add (.vbool true) (.vbool true) = .ok (.vint 2) := by
  constructor
  · intro b p
    exact validate_number_ok_of_valid (validNumber_vbool b) p
  · rw [add_ok_iff]
    refine ⟨validNumber_vbool true, validNumber_vbool true, ?_⟩
    simp [pyAdd, PyVal.isIntLike, PyVal.intVal]

/-- C1 counterexample: the integer `9 * 10^307` passes input validation,
yet `add` returns `18 * 10^307` on its success path — a value outside
`[-1e308, 1e308]`, hence not a valid Number.  (`add`, `subtract` and
`multiply` never validate their results.) -/
theorem C1_counterexample :
    validNumber (.vint (9 * 10 ^ 307)) = true ∧
    add (.vint (9 * 10 ^ 307)) (.vint (9 * 10 ^ 307)) = .ok (.vint (18 * 10 ^ 307)) ∧
    validNumber (.vint (18 * 10 ^ 307)) = false := by
  have h1 : validNumber (.vint (9 * 10 ^ 307)) = true := by
    rw [validNumber_vint, abs_le]
    constructor <;> push_cast <;> norm_num [MAX_INPUT_VALUE]
  refine ⟨h1, ?_, ?_⟩
  · rw [add_ok_iff]
    refine ⟨h1, h1, ?_⟩
    simp [pyAdd, PyVal.isIntLike, PyVal.intVal]
    norm_num
  · rw [Bool.eq_false_iff]
    intro hc
    have h2 := (abs_le.mp ((validNumber_vint _).1 hc)).2
    push_cast at h2
    norm_num [MAX_INPUT_VALUE] at h2

/-- C1 amended: results of `divide` and `power` that reach the success path
are valid Numbers (both re-validate their result), and the success values
of `add`, `subtract` and `multiply` are never NaN; but those three do not
validate their result, which may exceed the `[-1e308, 1e308]` bound (or,
for float arguments, overflow to infinity), as `C1_counterexample` shows. -/
theorem C1_amended_success_validity :
    (∀ a b v : PyVal, divide a b = .ok v → validNumber v = true) ∧
    (∀ (rpow : ℚ → ℚ → PyFloat) (a b v : PyVal),
      power rpow a b = .ok v → validNumber v = true) ∧
    (∀ a b v : PyVal, add a b = .ok v → v.isNaNVal = false) ∧
    (∀ a b v : PyVal, subtract a b = .ok v → v.isNaNVal = false) ∧
    (∀ a b v : PyVal, multiply a b = .ok v → v.isNaNVal = false) := by
  refine ⟨?_, ?_, ?_, ?_, ?_⟩
  · intro a b v h
    exact divideBody_ok_valid ((divide_ok_iff a b v).1 h)
  · intro rpow a b v h
    exact powerBody_ok_valid ((power_ok_iff rpow a b v).1 h)
  · intro a b v h
    obtain ⟨-, -, rfl⟩ := (add_ok_iff a b v).1 h
    exact pyAdd_not_nan a b
  · intro a b v h
    obtain ⟨-, -, rfl⟩ := (subtract_ok_iff a b v).1 h
    exact pySub_not_nan a b
  · intro a b v h
    obtain ⟨-, -, rfl⟩ := (multiply_ok_iff a b v).1 h
    exact pyMul_not_nan a b

/-- C7: for valid Numbers, `add(a, b)` succeeds with the value of `b + a`
(addition commutes, also as whole call results), and `subtract(a, b)`
succeeds with the exact negation of `subtract(b, a)`'s success value. -/
theorem C7_add_comm_subtract_antisym : ∀ a b : PyVal,
    validNumber a = true → validNumber b = true →
    add a b = .ok (pyAdd b a) ∧ add a b = add b a ∧
    subtract a b = .ok (pySub a b) ∧ subtract b a = .ok (pySub b a) ∧
    pySub a b = pyNegVal (pySub b a) := by
  intro a b hva hvb
  refine ⟨?_, ?_, ?_, ?_, pySub_antisym a b⟩
  · exact (add_ok_iff a b (pyAdd b a)).2 ⟨hva, hvb, pyAdd_comm b a⟩
  · rw [(add_ok_iff a b (pyAdd a b)).2 ⟨hva, hvb, rfl⟩,
      (add_ok_iff b a (pyAdd b a)).2 ⟨hvb, hva, rfl⟩, pyAdd_comm]
  · exact (subtract_ok_iff a b (pySub a b)).2 ⟨hva, hvb, rfl⟩
  · exact (subtract_ok_iff b a (pySub b a)).2 ⟨hvb, hva, rfl⟩

theorem validNumber_vint_small : validNumber (.vint 2) = true ∧ validNumber (.vint 3) = true := by
  constructor <;> (rw [validNumber_vint, abs_le]; constructor <;> push_cast <;>
    norm_num [MAX_INPUT_VALUE])

/-- C7 witness: the commutativity and antisymmetry statement at the
concrete valid inputs 2 and 3. -/
theorem C7_add_comm_subtract_antisym_witness :
    add (.vint 2) (.vint 3) = .ok (pyAdd (.vint 3) (.vint 2)) ∧
    add (.vint 2) (.vint 3) = add (.vint 3) (.vint 2) ∧
    subtract (.vint 2) (.vint 3) = .ok (pySub (.vint 2) (.vint 3)) ∧
    subtract (.vint 3) (.vint 2) = .ok (pySub (.vint 3) (.vint 2)) ∧
    pySub (.vint 2) (.vint 3) = pyNegVal (pySub (.vint 3) (.vint 2)) :=
  C7_add_comm_subtract_antisym (.vint 2) (.vint 3)
    validNumber_vint_small.1 validNumber_vint_small.2

/-- C3: for valid Numbers `a` and `b`, `divide(a, 0)` fails with the
DivisionByZero error whatever `a`'s sign or magnitude; for `b ≠ 0` it
succeeds with the exact quotient `a / b` whenever that quotient lies within
`[-1e308, 1e308]`, and fails with the OutOfRange result error when the
quotient exceeds that bound. -/
theorem C3_divide_behavior : ∀ a b : PyVal,
    validNumber a = true → validNumber b = true →
    (b.toQ = 0 → divide a b = .error .divByZero) ∧
    (b.toQ ≠ 0 →
      (|a.toQ / b.toQ| ≤ MAX_INPUT_VALUE →
        divide a b = .ok (.vfloat (.finite (a.toQ / b.toQ)))) ∧
      (MAX_INPUT_VALUE < |a.toQ / b.toQ| →
        divide a b = .error (.divResultRange (pyDiv a b)))) := by
  intro a b hva hvb
  constructor
  · intro hz
    have hbody : divideBody a b = .error .divByZero := by
      rw [divideBody_eq_of_valid hva hvb, if_pos hz]
    have h2 := divide_error_of_body hbody
    simpa [errClass] using h2
  · intro hnz
    constructor
    · intro hle
      rw [divide_ok_iff, divideBody_eq_of_valid hva hvb, if_neg hnz]
      have hfin : pyDiv a b = .vfloat (.finite (a.toQ / b.toQ)) := by
        unfold pyDiv
        rw [floatOfQ_of_abs_le hle]
      rw [hfin, (inRange_vfloat_finite _).2 hle]
      simp
    · intro hgt
      have hr : inRange (pyDiv a b) = false := by
        unfold pyDiv
        exact inRange_floatOfQ_false hgt
      have hbody : divideBody a b = .error (.divResultRange (pyDiv a b)) := by
        rw [divideBody_eq_of_valid hva hvb, if_neg hnz, if_pos hr]
      have h2 := divide_error_of_body hbody
      simpa [errClass] using h2

/-- C3 witness: `divide(5, 0)` fails with the DivisionByZero error and
`divide(6, 2)` returns exactly 3. -/
theorem C3_divide_behavior_witness :
    divide (.vint 5) (.vint 0) = .error .divByZero ∧
    divide (.vint 6) (.vint 2) = .ok (.vfloat (.finite 3)) := by
  constructor
  · exact (C3_divide_behavior (.vint 5) (.vint 0)
      (validNumber_vint_of_small (by norm_num) (by norm_num))
      (validNumber_vint_of_small (by norm_num) (by norm_num))).1 (by norm_num [PyVal.toQ])
  · have hq : (PyVal.vint 6).toQ / (PyVal.vint 2).toQ = 3 := by
      norm_num [PyVal.toQ]
    have hle : |(PyVal.vint 6).toQ / (PyVal.vint 2).toQ| ≤ MAX_INPUT_VALUE := by
      rw [hq]
      norm_num [MAX_INPUT_VALUE]
    have hmain := ((C3_divide_behavior (.vint 6) (.vint 2)
      (validNumber_vint_of_small (by norm_num) (by norm_num))
      (validNumber_vint_of_small (by norm_num) (by norm_num))).2
        (by norm_num [PyVal.toQ])).1 hle
    rw [hq] at hmain
    exact hmain

/-- C4: for every valid base and every valid exponent of magnitude above
1000, `power` fails with the exponent-ceiling InvalidValue error, whatever
the base and whatever the float-power oracle. -/
theorem C4_exponent_ceiling : ∀ (rpow : ℚ → ℚ → PyFloat) (base e : PyVal),
    validNumber base = true → validNumber e = true → 1000 < |e.toQ| →
    power rpow base e = .error (.powExpTooLarge e) := by
  intro rpow base e hvb hve hgt
  exact power_expTooLarge rpow hvb hve hgt

/-- C4 witness: `power(2, 1001)` fails with the exponent-ceiling error. -/
theorem C4_exponent_ceiling_witness :
    power (fun _ _ => PyFloat.finite 1) (.vint 2) (.vint 1001) =
      .error (.powExpTooLarge (.vint 1001)) :=
  C4_exponent_ceiling (fun _ _ => PyFloat.finite 1) (.vint 2) (.vint 1001)
    (validNumber_vint_of_small (by norm_num) (by norm_num))
    (validNumber_vint_of_small (by norm_num) (by norm_num))
    (by norm_num [PyVal.toQ])

/-- C5 counterexample: `2000` is a valid Number and a positive exponent,
yet `power(0, 2000)` fails with the exponent-ceiling error instead of
returning `0`, because the `abs(exponent) > 1000` check runs before the
computation; so "for every valid exponent e > 0, power(0, e) == 0" is
false as stated. -/
theorem C5_counterexample :
    validNumber (.vint 2000) = true ∧ (0 : ℚ) < (PyVal.vint 2000).toQ ∧
    power (fun _ _ => PyFloat.finite 1) (.vint 0) (.vint 2000) =
      .error (.powExpTooLarge (.vint 2000)) := by
  have hv : validNumber (.vint 2000) = true :=
    validNumber_vint_of_small (by norm_num) (by norm_num)
  refine ⟨hv, by norm_num [PyVal.toQ], ?_⟩
  exact power_expTooLarge _ (validNumber_vint_of_small (by norm_num) (by norm_num)) hv
    (by norm_num [PyVal.toQ])

/-- C5 amended: `power(a, 0) == 1` for every valid nonzero `a`;
`power(0, e) == 0` for every valid exponent with `0 < e ≤ 1000` (the
exponent ceiling of claim C4 cuts "every valid exponent e > 0" down to
this, as `C5_counterexample` forces); and `power(0, 0)` fails with the
`0^0` InvalidValue error. -/
theorem C5_power_edge_cases : ∀ rpow : ℚ → ℚ → PyFloat,
    (∀ a : PyVal, validNumber a = true → a.toQ ≠ 0 →
      ∃ r, power rpow a (.vint 0) = .ok r ∧ r.toQ = 1) ∧
    (∀ e : PyVal, validNumber e = true → 0 < e.toQ → e.toQ ≤ 1000 →
      ∃ r, power rpow (.vint 0) e = .ok r ∧ r.toQ = 0) ∧
    power rpow (.vint 0) (.vint 0) = .error .powUndefined := by
  intro rpow
  exact ⟨fun a hva hne => power_exp_zero rpow hva hne,
    fun e hve hpos hle => power_zero_posexp rpow hve hpos hle,
    power_zero_zero rpow⟩

/-- C5 witness: the three edge cases at concrete inputs — `power(5, 0)` is
`1`, `power(0, 3)` is `0`, and `power(0, 0)` fails with the `0^0` error. -/
theorem C5_power_edge_cases_witness :
    (∃ r, power (fun _ _ => PyFloat.finite 1) (.vint 5) (.vint 0) = .ok r ∧ r.toQ = 1) ∧
    (∃ r, power (fun _ _ => PyFloat.finite 1) (.vint 0) (.vint 3) = .ok r ∧ r.toQ = 0) ∧
    power (fun _ _ => PyFloat.finite 1) (.vint 0) (.vint 0) = .error .powUndefined :=
  ⟨(C5_power_edge_cases _).1 (.vint 5)
      (validNumber_vint_of_small (by norm_num) (by norm_num)) (by norm_num [PyVal.toQ]),
    (C5_power_edge_cases _).2.1 (.vint 3)
      (validNumber_vint_of_small (by norm_num) (by norm_num)) (by norm_num [PyVal.toQ])
      (by norm_num [PyVal.toQ]),
    (C5_power_edge_cases _).2.2⟩

/-- C6 counterexample: in `power(0, -1)` the error detected inside the
operation is CPython's `ZeroDivisionError` raised by `0 ** -1`, but the
caller receives a different error — the catch-all handler wraps it in a
new `ValueError` with a new message — so "re-signaled to the caller
unchanged, same error kind and message as at the point of detection" is
false as stated. -/
theorem C6_counterexample :
    power (fun _ _ => PyFloat.finite 1) (.vint 0) (.vint (-1)) =
      .error (.wrappedPow .zeroDivPow) ∧
    errClass (Err.wrappedPow Err.zeroDivPow) ≠ errClass Err.zeroDivPow ∧
    errMsg (Err.wrappedPow Err.zeroDivPow) ≠ errMsg Err.zeroDivPow := by
  refine ⟨?_, by simp [errClass], by decide⟩
  exact power_zero_negexp _ (validNumber_vint_of_small (by norm_num) (by norm_num))
    (by norm_num [PyVal.toQ]) (by norm_num [PyVal.toQ])

/-- C6 amended: errors raised with the expected classes are re-signaled
unchanged — every error of `add`, `subtract` and `multiply` is a validation
error propagated as-is; `divide` re-raises `ValueError`s unchanged; `power`
re-raises `ValueError`s and `OverflowError`s unchanged — but the catch-all
handlers of `divide` and `power` wrap any other exception in a new
`ValueError` whose message begins "Failed to perform ..." instead of
re-signaling it unchanged (`C6_counterexample`); and, the result type being
`Except`, no numeric result is ever returned alongside an error. -/
theorem C6_error_propagation :
    (∀ (a b : PyVal) (e : Err), add a b = .error e →
      validate_number a "a" = .error e ∨ validate_number b "b" = .error e) ∧
    (∀ (a b : PyVal) (e : Err), subtract a b = .error e →
      validate_number a "a" = .error e ∨ validate_number b "b" = .error e) ∧
    (∀ (a b : PyVal) (e : Err), multiply a b = .error e →
      validate_number a "a" = .error e ∨ validate_number b "b" = .error e) ∧
    (∀ (a b : PyVal) (e : Err), divideBody a b = .error e →
      divide a b = .error (if errClass e = .valueError then e else .wrappedDiv e)) ∧
    (∀ (rpow : ℚ → ℚ → PyFloat) (a b : PyVal) (e : Err),
      powerBody rpow a b = .error e →
      power rpow a b =
        .error (if errClass e = .valueError ∨ errClass e = .overflowError then e
          else .wrappedPow e)) :=
  ⟨fun _ _ _ h => add_error_imp h, fun _ _ _ h => subtract_error_imp h,
    fun _ _ _ h => multiply_error_imp h, fun _ _ _ h => divide_error_of_body h,
    fun _ _ _ _ h => power_error_of_body h⟩

/-- C10: for every valid negative exponent of magnitude at most 1000,
`power(0, e)` does not surface the `ZeroDivisionError` raised by `0 ** e`:
the catch-all handler re-signals it as a wrapped `ValueError` whose message
begins "Failed to perform power operation". -/
theorem C10_zero_base_negative_exponent :
    ∀ (rpow : ℚ → ℚ → PyFloat) (e : PyVal),
    validNumber e = true → e.toQ < 0 → |e.toQ| ≤ 1000 →
    power rpow (.vint 0) e = .error (.wrappedPow .zeroDivPow) ∧
    errClass (Err.wrappedPow Err.zeroDivPow) = .valueError ∧
    ∃ rest, errMsg (Err.wrappedPow Err.zeroDivPow) =
      "Failed to perform power operation" ++ rest := by
  intro rpow e hve hneg hle
  exact ⟨power_zero_negexp rpow hve hneg hle, rfl,
    ⟨": 0.0 cannot be raised to a negative power", by decide⟩⟩

/-- C10 witness: `power(0, -2)` fails with the wrapped error. -/
theorem C10_zero_base_negative_exponent_witness :
    power (fun _ _ => PyFloat.finite 1) (.vint 0) (.vint (-2)) =
      .error (.wrappedPow .zeroDivPow) ∧
    errClass (Err.wrappedPow Err.zeroDivPow) = .valueError ∧
    ∃ rest, errMsg (Err.wrappedPow Err.zeroDivPow) =
      "Failed to perform power operation" ++ rest :=
  C10_zero_base_negative_exponent (fun _ _ => PyFloat.finite 1) (.vint (-2))
    (validNumber_vint_of_small (by norm_num) (by norm_num))
    (by norm_num [PyVal.toQ]) (by norm_num [PyVal.toQ])

/-- C8: invoking the tool "add" through the gateway with the argument
mapping {a: 5, b: 3} yields 8, the same result as calling `add(5, 3)`
directly; and in general the gateway's dispatch of "add" is exactly the
operation's outcome embedded unchanged (`liftResult`), for success and
typed failure alike. -/
theorem C8_gateway_add_transparent :
    (∀ rpow : ℚ → ℚ → PyFloat,
      invoke rpow "add" [("a", .vint 5), ("b", .vint 3)] = .ok (.vint 8) ∧
      add (.vint 5) (.vint 3) = .ok (.vint 8)) ∧
    (∀ (rpow : ℚ → ℚ → PyFloat) (a b : PyVal),
      invoke rpow "add" [("a", a), ("b", b)] = liftResult (add a b)) := by
  have hgen : ∀ (rpow : ℚ → ℚ → PyFloat) (a b : PyVal),
      invoke rpow "add" [("a", a), ("b", b)] = liftResult (add a b) := by
    intro rpow a b
    rfl
  refine ⟨?_, hgen⟩
  intro rpow
  have h53 : add (.vint 5) (.vint 3) = .ok (.vint 8) := by
    rw [add_ok_iff]
    exact ⟨validNumber_vint_of_small (by norm_num) (by norm_num),
      validNumber_vint_of_small (by norm_num) (by norm_num),
      by norm_num [pyAdd, PyVal.isIntLike, PyVal.intVal]⟩
  exact ⟨by rw [hgen, h53]; rfl, h53⟩

end CalcServer
